import Mathlib

/-!
Verification of the multichat relay server and translation router.

The relay model embeds the socket.io server in the repository: its three
in-memory maps (connectedUsers, userRooms, messages), the socket.io room
membership used for fan-out, and the event handlers user:join, chat:join,
chat:leave, message:send, chat:history and disconnect.  JS Map objects are
embedded as association lists with set/get/delete of Map semantics; the
non-deterministic message stamp (Date.now id suffix and timestamp) is
supplied by the caller as an oracle.

The translation model embeds the translation service module: the three
backend calls (OpenAI, Gemini, Claude), autoTranslate and batchTranslate.
The external HTTP world of one backend call is an oracle record holding
whether the provider key is configured, whether the HTTP response was ok,
and the text field extracted from the response body.
-/

namespace Multichat

/-! ### Association lists with JS Map semantics -/

def alGet {α β : Type} [DecidableEq α] (m : List (α × β)) (k : α) : Option β :=
  match m with
  | [] => none
  | p :: rest => if k = p.1 then some p.2 else alGet rest k

def alSet {α β : Type} [DecidableEq α] (m : List (α × β)) (k : α) (v : β) : List (α × β) :=
  match m with
  | [] => [(k, v)]
  | p :: rest => if k = p.1 then (k, v) :: rest else p :: alSet rest k v

def alDelete {α β : Type} [DecidableEq α] (m : List (α × β)) (k : α) : List (α × β) :=
  match m with
  | [] => []
  | p :: rest => if p.1 = k then alDelete rest k else p :: alDelete rest k

theorem alGet_alSet {α β : Type} [DecidableEq α] (m : List (α × β)) (k k' : α) (v : β) :
    alGet (alSet m k v) k' = if k' = k then some v else alGet m k' := by
  induction m with
  | nil =>
    simp only [alSet, alGet]
  | cons p rest ih =>
    by_cases hk : k = p.1
    · by_cases hk' : k' = k <;> simp [alSet, alGet, hk, hk', hk ▸ hk']
    · by_cases hk' : k' = p.1
      · have h1 : ¬k' = k := fun h => hk (h ▸ hk' : k = p.1)
        have h2 : ¬p.1 = k := fun h => hk h.symm
        simp [alSet, alGet, hk, hk', h1, h2]
      · simp [alSet, alGet, hk, hk', ih]

theorem alGet_alDelete_self {α β : Type} [DecidableEq α] (m : List (α × β)) (k : α) :
    alGet (alDelete m k) k = none := by
  induction m with
  | nil => simp [alDelete, alGet]
  | cons p rest ih =>
    by_cases hp : p.1 = k
    · simp [alDelete, hp, ih]
    · have : ¬k = p.1 := fun h => hp h.symm
      simp [alDelete, alGet, hp, this, ih]

/-! ### Relay data model -/

abbrev UserId := String
abbrev SocketId := String
abbrev ChatId := String

structure MessageData where
  senderId : UserId
  recipientId : UserId
  content : String
deriving Repr, DecidableEq

structure Message where
  id : String
  senderId : UserId
  recipientId : UserId
  content : String
  timestamp : Nat
deriving Repr, DecidableEq

def stampMessage (d : MessageData) (freshId : String) (now : Nat) : Message :=
  ⟨freshId, d.senderId, d.recipientId, d.content, now⟩

/-- Embeds the JS default sort comparator on strings (elementwise code-unit
comparison, shorter prefix first) used by the chat id derivation
chat_ + sorted pair joined by an underscore. -/
def jsLtChars (a b : List Char) : Bool :=
  match a, b with
  | [], [] => false
  | [], _ :: _ => true
  | _ :: _, [] => false
  | c :: as, d :: bs =>
    if c.toNat < d.toNat then true
    else if d.toNat < c.toNat then false
    else jsLtChars as bs

def jsLt (a b : String) : Bool := jsLtChars a.data b.data

def sortPair (a b : String) : String × String :=
  if jsLt b a then (b, a) else (a, b)

def deriveChatId (a b : UserId) : ChatId :=
  "chat_" ++ (sortPair a b).1 ++ "_" ++ (sortPair a b).2

structure ServerState where
  connectedUsers : List (SocketId × UserId)
  socketUser : List (SocketId × UserId)
  userRooms : List (Option UserId × ChatId)
  messages : List (ChatId × List Message)
  socketRooms : List (SocketId × List String)
deriving Repr, DecidableEq

def emptyState : ServerState := ⟨[], [], [], [], []⟩

inductive OutEvent where
  | receiveMsg (target : SocketId) (m : Message)
  | userOnline (u : UserId)
  | usersOnline (target : SocketId) (us : List UserId)
  | userOffline (u : UserId)
  | chatHistory (target : SocketId) (ms : List Message)
  | typing (target : SocketId) (u : UserId) (isTyping : Bool)
deriving Repr, DecidableEq

def joinRoom (rooms : List (SocketId × List String)) (sock : SocketId) (r : String) :
    List (SocketId × List String) :=
  match alGet rooms sock with
  | none => alSet rooms sock [r]
  | some rs => if r ∈ rs then rooms else alSet rooms sock (rs ++ [r])

def leaveRoom (rooms : List (SocketId × List String)) (sock : SocketId) (r : String) :
    List (SocketId × List String) :=
  match alGet rooms sock with
  | none => rooms
  | some rs => alSet rooms sock (rs.filter (fun x => x ≠ r))

def roomMembers (rooms : List (SocketId × List String)) (r : String) : List SocketId :=
  (rooms.filter (fun p => decide (r ∈ p.2))).map (fun p => p.1)

def getHistory (st : ServerState) (c : ChatId) : List Message :=
  (alGet st.messages c).getD []

def listOnline (st : ServerState) : List UserId :=
  st.connectedUsers.map (fun p => p.2)

def isOnline (st : ServerState) (u : UserId) : Bool :=
  decide (u ∈ listOnline st)

def connectionsOf (st : ServerState) (u : UserId) : List SocketId :=
  (st.connectedUsers.filter (fun p => decide (p.2 = u))).map (fun p => p.1)

def currentRoom (st : ServerState) (u : UserId) : Option ChatId :=
  alGet st.userRooms (some u)

/-! ### Event handlers, transcribed from the socket.io server -/

def handleUserJoin (st : ServerState) (sock : SocketId) (uid : UserId) :
    ServerState × List OutEvent :=
  let st1 : ServerState :=
    { st with
      connectedUsers := alSet st.connectedUsers sock uid
      socketUser := alSet st.socketUser sock uid
      socketRooms := joinRoom st.socketRooms sock ("user_" ++ uid) }
  (st1, [OutEvent.userOnline uid, OutEvent.usersOnline sock (listOnline st1)])

def handleChatJoin (st : ServerState) (sock : SocketId) (chatId : ChatId) :
    ServerState × List OutEvent :=
  let st1 : ServerState :=
    { st with
      socketRooms := joinRoom st.socketRooms sock chatId
      userRooms := alSet st.userRooms (alGet st.socketUser sock) chatId }
  (st1, [OutEvent.chatHistory sock (getHistory st1 chatId)])

def handleChatLeave (st : ServerState) (sock : SocketId) (chatId : ChatId) :
    ServerState × List OutEvent :=
  ({ st with
     socketRooms := leaveRoom st.socketRooms sock chatId
     userRooms := alDelete st.userRooms (alGet st.socketUser sock) }, [])

def handleSend (st : ServerState) (sock : SocketId) (d : MessageData)
    (freshId : String) (now : Nat) : ServerState × List OutEvent :=
  let msg := stampMessage d freshId now
  let chatId := deriveChatId d.senderId d.recipientId
  let st1 : ServerState :=
    { st with messages := alSet st.messages chatId (getHistory st chatId ++ [msg]) }
  let targets := (roomMembers st.socketRooms ("user_" ++ d.recipientId)).filter
    (fun s => s ≠ sock)
  (st1, targets.map (fun s => OutEvent.receiveMsg s msg) ++ [OutEvent.receiveMsg sock msg])

def handleChatHistory (st : ServerState) (sock : SocketId) (chatId : ChatId) :
    ServerState × List OutEvent :=
  (st, [OutEvent.chatHistory sock (getHistory st chatId)])

def handleDisconnect (st : ServerState) (sock : SocketId) : ServerState × List OutEvent :=
  match alGet st.connectedUsers sock with
  | none => (st, [])
  | some uid =>
    ({ st with
       connectedUsers := alDelete st.connectedUsers sock
       userRooms := alDelete st.userRooms (some uid)
       socketRooms := alDelete st.socketRooms sock }, [OutEvent.userOffline uid])

structure SendReq where
  sock : SocketId
  data : MessageData
  freshId : String
  now : Nat
deriving Repr, DecidableEq

def stampOf (q : SendReq) : Message := stampMessage q.data q.freshId q.now

def runSends (st : ServerState) (reqs : List SendReq) : ServerState :=
  match reqs with
  | [] => st
  | q :: rest => runSends (handleSend st q.sock q.data q.freshId q.now).1 rest

def c1req1 : SendReq := ⟨"sA", ⟨"u1", "u2", "hello"⟩, "m1", 10⟩

def c1req2 : SendReq := ⟨"sB", ⟨"u2", "u1", "hi"⟩, "m2", 11⟩

def c2state1 : ServerState := (handleUserJoin emptyState "s1" "u").1

def c2state2 : ServerState := (handleUserJoin c2state1 "s2" "u").1

def c3state1 : ServerState := (handleUserJoin emptyState "s" "u").1

def c3state2 : ServerState := (handleChatJoin c3state1 "s" "r1").1

def c3state3 : ServerState := (handleChatLeave c3state2 "s" "r2").1

def c4state : ServerState :=
  (handleUserJoin (handleUserJoin (handleUserJoin emptyState "sA" "u1").1 "sB" "u1").1
    "sC" "u2").1

/-! ### Translation router data model -/

structure TranslationResult where
  translatedText : String
  sourceLanguage : Option String
  targetLanguage : String
  confidence : Option ℚ
deriving Repr, DecidableEq

structure TranslationError where
  error : String
  code : String
  details : String
deriving Repr, DecidableEq

/-- Oracle for the external world of one backend call: whether the provider
key is configured, whether the HTTP response came back ok, the status line
used in the error message, and the text field extracted from the parsed
response body (none when absent or unparseable). -/
structure BackendEnv where
  hasKey : Bool
  ok : Bool
  statusMsg : String
  content : Option String
deriving Repr, DecidableEq

inductive MessageType where
  | casual
  | document
  | formal
deriving Repr, DecidableEq

structure TranslationEnv where
  openai : BackendEnv
  gemini : BackendEnv
  claude : BackendEnv
deriving Repr, DecidableEq

/-- Embeds the JS String.prototype.trim call applied to the OpenAI response
content: strip whitespace from both ends. -/
def trimChars (l : List Char) : List Char :=
  ((l.dropWhile Char.isWhitespace).reverse.dropWhile Char.isWhitespace).reverse

def jsTrim (s : String) : String := ⟨trimChars s.data⟩

def translateTextOpenAI (env : BackendEnv) (text : String) (targetLang : String)
    (sourceLang : Option String) : Except TranslationError TranslationResult :=
  if !env.hasKey then
    Except.error ⟨"Translation failed", "OPENAI_ERROR", "OpenAI API key not configured"⟩
  else if !env.ok then
    Except.error ⟨"Translation failed", "OPENAI_ERROR", "OpenAI API error: " ++ env.statusMsg⟩
  else
    match env.content.map jsTrim with
    | none =>
      Except.error ⟨"Translation failed", "OPENAI_ERROR", "No translation received from OpenAI"⟩
    | some t =>
      if t = "" then
        Except.error ⟨"Translation failed", "OPENAI_ERROR", "No translation received from OpenAI"⟩
      else Except.ok ⟨t, sourceLang, targetLang, some (95 / 100)⟩

def translateDocumentGemini (env : BackendEnv) (documentContent : String) (targetLang : String)
    (sourceLang : Option String) : Except TranslationError TranslationResult :=
  if !env.hasKey then
    Except.error ⟨"Document translation failed", "GEMINI_ERROR", "Gemini API key not configured"⟩
  else if !env.ok then
    Except.error
      ⟨"Document translation failed", "GEMINI_ERROR", "Gemini API error: " ++ env.statusMsg⟩
  else
    match env.content with
    | none =>
      Except.error
        ⟨"Document translation failed", "GEMINI_ERROR", "No translation received from Gemini"⟩
    | some t =>
      if t = "" then
        Except.error
          ⟨"Document translation failed", "GEMINI_ERROR", "No translation received from Gemini"⟩
      else Except.ok ⟨t, sourceLang, targetLang, some (92 / 100)⟩

def translateTextClaude (env : BackendEnv) (text : String) (targetLang : String)
    (sourceLang : Option String) (context : Option String) :
    Except TranslationError TranslationResult :=
  if !env.hasKey then
    Except.error ⟨"Formal translation failed", "CLAUDE_ERROR", "Claude API key not configured"⟩
  else if !env.ok then
    Except.error
      ⟨"Formal translation failed", "CLAUDE_ERROR", "Claude API error: " ++ env.statusMsg⟩
  else
    match env.content with
    | none =>
      Except.error
        ⟨"Formal translation failed", "CLAUDE_ERROR", "No translation received from Claude"⟩
    | some t =>
      if t = "" then
        Except.error
          ⟨"Formal translation failed", "CLAUDE_ERROR", "No translation received from Claude"⟩
      else Except.ok ⟨t, sourceLang, targetLang, some (98 / 100)⟩

/-- The messageType argument is optional in the source with default value
casual; a call site passing nothing is modelled by none. -/
def autoTranslate (env : TranslationEnv) (text : String) (targetLang : String)
    (messageType : Option MessageType) : Except TranslationError TranslationResult :=
  let mt := messageType.getD MessageType.casual
  let primary :=
    match mt with
    | MessageType.document => translateDocumentGemini env.gemini text targetLang none
    | MessageType.formal => translateTextClaude env.claude text targetLang none (some "formal")
    | MessageType.casual => translateTextOpenAI env.openai text targetLang none
  match primary with
  | Except.ok r => Except.ok r
  | Except.error e =>
    if mt ≠ MessageType.casual then
      match translateTextOpenAI env.openai text targetLang none with
      | Except.ok r => Except.ok r
      | Except.error _ => Except.error e
    else Except.error e

structure BatchItem where
  text : String
  type : Option MessageType
deriving Repr, DecidableEq

def batchTranslate (env : TranslationEnv) (messages : List BatchItem) (targetLang : String) :
    List TranslationResult :=
  match messages with
  | [] => []
  | m :: rest =>
    (match autoTranslate env m.text targetLang m.type with
     | Except.ok r => r
     | Except.error _ => ⟨m.text, none, targetLang, some 0⟩) :: batchTranslate env rest targetLang

def itemTranslate (env : TranslationEnv) (targetLang : String) (m : BatchItem) :
    TranslationResult :=
  match autoTranslate env m.text targetLang m.type with
  | Except.ok r => r
  | Except.error _ => ⟨m.text, none, targetLang, some 0⟩

def envKeyMissing : BackendEnv := ⟨false, true, "", some "hola"⟩

def envWorking : BackendEnv := ⟨true, true, "", some "hola"⟩

def cEnvDocFallback : TranslationEnv := ⟨envWorking, envKeyMissing, envKeyMissing⟩

def cEnvCasualFail : TranslationEnv := ⟨envKeyMissing, envKeyMissing, envWorking⟩

def c9items : List BatchItem :=
  [⟨"a", some MessageType.formal⟩, ⟨"b", none⟩, ⟨"c", some MessageType.formal⟩]

end Multichat

namespace Multichat

theorem jsLtChars_asymm (a b : List Char) (h : jsLtChars a b = true) :
    jsLtChars b a = false := by
  induction a generalizing b with
  | nil =>
    cases b with
    | nil => simp [jsLtChars] at h
    | cons d bs => simp [jsLtChars]
  | cons c as ih =>
    cases b with
    | nil => simp [jsLtChars] at h
    | cons d bs =>
      by_cases h1 : c.toNat < d.toNat
      · have h2 : ¬d.toNat < c.toNat := Nat.lt_asymm h1
        simp [jsLtChars, h1, h2]
      · by_cases h2 : d.toNat < c.toNat
        · simp [jsLtChars, h1, h2] at h
        · simp only [jsLtChars, if_neg h1, if_neg h2] at h
          simp only [jsLtChars, if_neg h2, if_neg h1]
          exact ih bs h

theorem jsLtChars_eq_of_not (a b : List Char) (hab : jsLtChars a b = false)
    (hba : jsLtChars b a = false) : a = b := by
  induction a generalizing b with
  | nil =>
    cases b with
    | nil => rfl
    | cons d bs => simp [jsLtChars] at hab
  | cons c as ih =>
    cases b with
    | nil => simp [jsLtChars] at hba
    | cons d bs =>
      by_cases h1 : c.toNat < d.toNat
      · simp [jsLtChars, h1] at hab
      · by_cases h2 : d.toNat < c.toNat
        · simp [jsLtChars, h1, h2] at hba
        · have hcd : c = d := by
            have := Nat.le_antisymm (Nat.le_of_not_lt h2) (Nat.le_of_not_lt h1)
            exact Char.ext_iff.2 (UInt32.ext this)
          simp only [jsLtChars, if_neg h1, if_neg h2] at hab
          simp only [jsLtChars, if_neg h2, if_neg h1] at hba
          rw [hcd, ih bs hab hba]

theorem getHistory_handleSend (st : ServerState) (sock : SocketId) (d : MessageData)
    (fid : String) (now : Nat) (c : ChatId) :
    getHistory (handleSend st sock d fid now).1 c =
      if c = deriveChatId d.senderId d.recipientId
      then getHistory st c ++ [stampMessage d fid now]
      else getHistory st c := by
  unfold handleSend getHistory
  simp only [alGet_alSet]
  by_cases h : c = deriveChatId d.senderId d.recipientId <;> simp [h, getHistory]

theorem runSends_getHistory (reqs : List SendReq) (st : ServerState) (r : ChatId)
    (hr : ∀ q ∈ reqs, deriveChatId q.data.senderId q.data.recipientId = r) :
    getHistory (runSends st reqs) r = getHistory st r ++ reqs.map stampOf := by
  induction reqs generalizing st with
  | nil => simp [runSends]
  | cons q rest ih =>
    have hq : deriveChatId q.data.senderId q.data.recipientId = r :=
      hr q (List.mem_cons_self _ _)
    have hrest : ∀ p ∈ rest, deriveChatId p.data.senderId p.data.recipientId = r :=
      fun p hp => hr p (List.mem_cons_of_mem _ hp)
    simp only [runSends]
    rw [ih _ hrest, getHistory_handleSend]
    simp [hq, stampOf]

theorem runSends_getHistory_other (reqs : List SendReq) (st : ServerState) (r c : ChatId)
    (hr : ∀ q ∈ reqs, deriveChatId q.data.senderId q.data.recipientId = r)
    (hc : c ≠ r) :
    getHistory (runSends st reqs) c = getHistory st c := by
  induction reqs generalizing st with
  | nil => simp [runSends]
  | cons q rest ih =>
    have hq : deriveChatId q.data.senderId q.data.recipientId = r :=
      hr q (List.mem_cons_self _ _)
    have hrest : ∀ p ∈ rest, deriveChatId p.data.senderId p.data.recipientId = r :=
      fun p hp => hr p (List.mem_cons_of_mem _ hp)
    simp only [runSends]
    rw [ih _ hrest, getHistory_handleSend]
    simp [hq, hc]

/-- C1: every send whose participants resolve to room r appends exactly one
freshly-stamped message to r and touches no other room; after N such sends
a history request for r returns the prior history followed by the N stamped
messages in send order — exactly N messages when the room started empty. -/
theorem c1_send_history (st : ServerState) (r : ChatId) (reqs : List SendReq)
    (sock : SocketId)
    (hr : ∀ q ∈ reqs, deriveChatId q.data.senderId q.data.recipientId = r) :
    getHistory (runSends st reqs) r = getHistory st r ++ reqs.map stampOf ∧
    (getHistory st r = [] → (getHistory (runSends st reqs) r).length = reqs.length) ∧
    (handleChatHistory (runSends st reqs) sock r).2 =
      [OutEvent.chatHistory sock (getHistory st r ++ reqs.map stampOf)] ∧
    ∀ c : ChatId, c ≠ r → getHistory (runSends st reqs) c = getHistory st c := by
  have hmain := runSends_getHistory reqs st r hr
  refine ⟨hmain, ?_, ?_, ?_⟩
  · intro h0
    rw [hmain, h0]
    simp
  · simp [handleChatHistory, hmain]
  · intro c hc
    exact runSends_getHistory_other reqs st r c hr hc

theorem c1_send_history_witness :
    (∀ q ∈ [c1req1, c1req2], deriveChatId q.data.senderId q.data.recipientId = "chat_u1_u2") ∧
    getHistory (runSends emptyState [c1req1, c1req2]) "chat_u1_u2" =
      getHistory emptyState "chat_u1_u2" ++ [c1req1, c1req2].map stampOf :=
  ⟨by decide, (c1_send_history emptyState "chat_u1_u2" [c1req1, c1req2] "sA" (by decide)).1⟩

/-- C2 counterexample: user u holds two live connections (s1 and s2); closing
s1 nevertheless fires an offline event for u — one userOffline event is
emitted while u still has a live connection — contradicting the claim that
no offline event fires before the last connection closes. -/
theorem c2_presence_counterexample :
    connectionsOf c2state2 "u" = ["s1", "s2"] ∧
    (handleDisconnect c2state2 "s1").2 = [OutEvent.userOffline "u"] ∧
    isOnline (handleDisconnect c2state2 "s1").1 "u" = true := by decide

/-- C2 amended: a user is reported online iff at least one live connection
maps to it; but the disconnect of any registered connection emits exactly one
offline event for that user even when other live connections remain, and a
disconnect of an unregistered connection emits nothing. -/
theorem c2_presence_amended (st : ServerState) (u : UserId) (sock : SocketId) :
    (isOnline st u = true ↔ connectionsOf st u ≠ []) ∧
    (alGet st.connectedUsers sock = some u →
      (handleDisconnect st sock).2 = [OutEvent.userOffline u]) ∧
    (alGet st.connectedUsers sock = none → (handleDisconnect st sock).2 = []) := by
  refine ⟨?_, ?_, ?_⟩
  · simp only [isOnline, connectionsOf, listOnline, decide_eq_true_eq, Ne,
      List.map_eq_nil_iff, List.filter_eq_nil_iff, List.mem_map, decide_eq_true_eq]
    constructor
    · rintro ⟨p, hp, hpu⟩ hall
      exact hall p hp hpu
    · intro h
      by_contra hno
      push_neg at hno
      exact h fun p hp hpu => hno p hp hpu
  · intro h
    simp [handleDisconnect, h]
  · intro h
    simp [handleDisconnect, h]

theorem c2_presence_amended_witness :
    alGet c2state1.connectedUsers "s1" = some "u" ∧
    (handleDisconnect c2state1 "s1").2 = [OutEvent.userOffline "u"] :=
  ⟨by decide, (c2_presence_amended c2state1 "u" "s1").2.1 (by decide)⟩

/-- C3 counterexample: user u joins room r1, then issues a leave naming a
different room r2; the claim says this stale leave is a no-op, but the code
clears the mapping unconditionally — currentRoom drops from r1 to none. -/
theorem c3_leave_counterexample :
    currentRoom c3state2 "u" = some "r1" ∧
    ("r2" : ChatId) ≠ "r1" ∧
    currentRoom c3state3 "u" = none := by decide

/-- C3 amended: a join sets the user as mapped to the joined room, and a
leave clears the issuing user room mapping unconditionally, whatever room id
it names — so after a join/leave sequence currentRoom is the most recent join
only if no leave at all followed it, and none after any leave. -/
theorem c3_leave_amended (st : ServerState) (sock : SocketId) (u : UserId) (r r' : ChatId)
    (h : alGet st.socketUser sock = some u) :
    currentRoom (handleChatLeave st sock r').1 u = none ∧
    currentRoom (handleChatJoin st sock r).1 u = some r := by
  constructor
  · simp [handleChatLeave, currentRoom, h, alGet_alDelete_self]
  · simp [handleChatJoin, currentRoom, h, alGet_alSet]

theorem c3_leave_amended_witness :
    alGet c3state2.socketUser "s" = some "u" ∧
    currentRoom (handleChatLeave c3state2 "s" "r2").1 "u" = none :=
  ⟨by decide, (c3_leave_amended c3state2 "s" "u" "r1" "r2" (by decide)).1⟩

/-- C4 amended: a send delivers the freshly stamped message exactly to the
connections in the recipient personal room other than the issuing one, plus
an echo to the issuing connection alone — the sender other sessions are not
among the receivers. -/
theorem c4_send_delivery (st : ServerState) (sock s : SocketId) (d : MessageData)
    (freshId : String) (now : Nat) (m : Message) :
    OutEvent.receiveMsg s m ∈ (handleSend st sock d freshId now).2 ↔
      m = stampMessage d freshId now ∧
        (s = sock ∨ (s ∈ roomMembers st.socketRooms ("user_" ++ d.recipientId) ∧ s ≠ sock)) := by
  unfold handleSend
  simp only [List.mem_append, List.mem_map, List.mem_filter, List.mem_singleton,
    OutEvent.receiveMsg.injEq, decide_eq_true_eq]
  aesop

/-- C4 counterexample: the sender u1 has two live connections sA and sB; a
send issued from sA reaches recipient connection sC and echoes back to sA
only — sB, although bound to the sender, receives nothing, contradicting the
claim that every connection bound to the sender receives the echo. -/
theorem c4_send_counterexample :
    alGet c4state.connectedUsers "sB" = some "u1" ∧
    (handleSend c4state "sA" ⟨"u1", "u2", "hello"⟩ "m1" 5).2 =
      [OutEvent.receiveMsg "sC" (stampMessage ⟨"u1", "u2", "hello"⟩ "m1" 5),
       OutEvent.receiveMsg "sA" (stampMessage ⟨"u1", "u2", "hello"⟩ "m1" 5)] ∧
    OutEvent.receiveMsg "sB" (stampMessage ⟨"u1", "u2", "hello"⟩ "m1" 5) ∉
      (handleSend c4state "sA" ⟨"u1", "u2", "hello"⟩ "m1" 5).2 := by decide

/-- C5: room-id derivation is order-independent — the chat id derived for a
pair of user ids equals the one derived for the swapped pair, because both
are built from the sorted pair. -/
theorem c5_deriveChatId_comm (u1 u2 : UserId) :
    deriveChatId u1 u2 = deriveChatId u2 u1 := by
  unfold deriveChatId sortPair
  by_cases h1 : jsLt u2 u1 = true
  · have h2 : jsLt u1 u2 = false := by
      unfold jsLt at h1 ⊢
      exact jsLtChars_asymm u2.data u1.data h1
    simp [h1, h2]
  · by_cases h2 : jsLt u1 u2 = true
    · simp [h1, h2]
    · have hd : u1.data = u2.data :=
        jsLtChars_eq_of_not u1.data u2.data
          (Bool.not_eq_true _ ▸ h2) (Bool.not_eq_true _ ▸ h1)
      have he : u1 = u2 := by
        cases u1
        cases u2
        exact congrArg String.mk hd
      simp [he]

theorem translateTextOpenAI_spec (env : BackendEnv) (text targetLang : String)
    (sourceLang : Option String) :
    (∀ r, translateTextOpenAI env text targetLang sourceLang = Except.ok r →
      r.confidence = some (95 / 100)) ∧
    (∀ e, translateTextOpenAI env text targetLang sourceLang = Except.error e →
      e.code = "OPENAI_ERROR") := by
  refine ⟨fun r h => ?_, fun e h => ?_⟩ <;>
  · unfold translateTextOpenAI at h
    repeat' split at h
    all_goals simp_all
    all_goals subst h
    all_goals rfl

theorem translateDocumentGemini_spec (env : BackendEnv) (documentContent targetLang : String)
    (sourceLang : Option String) :
    (∀ r, translateDocumentGemini env documentContent targetLang sourceLang = Except.ok r →
      r.confidence = some (92 / 100)) ∧
    (∀ e, translateDocumentGemini env documentContent targetLang sourceLang = Except.error e →
      e.code = "GEMINI_ERROR") := by
  refine ⟨fun r h => ?_, fun e h => ?_⟩ <;>
  · unfold translateDocumentGemini at h
    repeat' split at h
    all_goals simp_all
    all_goals subst h
    all_goals rfl

theorem translateTextClaude_spec (env : BackendEnv) (text targetLang : String)
    (sourceLang : Option String) (context : Option String) :
    (∀ r, translateTextClaude env text targetLang sourceLang context = Except.ok r →
      r.confidence = some (98 / 100)) ∧
    (∀ e, translateTextClaude env text targetLang sourceLang context = Except.error e →
      e.code = "CLAUDE_ERROR") := by
  refine ⟨fun r h => ?_, fun e h => ?_⟩ <;>
  · unfold translateTextClaude at h
    repeat' split at h
    all_goals simp_all
    all_goals subst h
    all_goals rfl

theorem autoTranslate_ok_cases (env : TranslationEnv) (text targetLang : String)
    (mt : Option MessageType) (r : TranslationResult)
    (h : autoTranslate env text targetLang mt = Except.ok r) :
    translateTextOpenAI env.openai text targetLang none = Except.ok r ∨
    translateDocumentGemini env.gemini text targetLang none = Except.ok r ∨
    translateTextClaude env.claude text targetLang none (some "formal") = Except.ok r := by
  unfold autoTranslate at h
  cases hmt : mt.getD MessageType.casual <;> simp only [hmt] at h <;>
    repeat' split at h <;> simp_all

theorem autoTranslate_ok_confidence (env : TranslationEnv) (text targetLang : String)
    (mt : Option MessageType) (r : TranslationResult)
    (h : autoTranslate env text targetLang mt = Except.ok r) :
    r.confidence = some (95 / 100) ∨ r.confidence = some (92 / 100) ∨
      r.confidence = some (98 / 100) := by
  rcases autoTranslate_ok_cases env text targetLang mt r h with hc | hc | hc
  · exact Or.inl ((translateTextOpenAI_spec env.openai text targetLang none).1 r hc)
  · exact Or.inr (Or.inl ((translateDocumentGemini_spec env.gemini text targetLang none).1 r hc))
  · exact Or.inr (Or.inr
      ((translateTextClaude_spec env.claude text targetLang none (some "formal")).1 r hc))

/-- C6: when the selected backend of a non-casual class fails, autoTranslate
retries exactly once through the general-purpose OpenAI backend and returns
its result on success; when that fallback also fails the original
selected-backend error is propagated, not the fallback error; for class
casual the OpenAI error is propagated directly with no fallback consulted. -/
theorem c6_fallback_policy (env : TranslationEnv) (text targetLang : String) :
    (∀ e r, translateDocumentGemini env.gemini text targetLang none = Except.error e →
      translateTextOpenAI env.openai text targetLang none = Except.ok r →
      autoTranslate env text targetLang (some MessageType.document) = Except.ok r) ∧
    (∀ e e2, translateDocumentGemini env.gemini text targetLang none = Except.error e →
      translateTextOpenAI env.openai text targetLang none = Except.error e2 →
      autoTranslate env text targetLang (some MessageType.document) = Except.error e) ∧
    (∀ e r, translateTextClaude env.claude text targetLang none (some "formal") =
        Except.error e →
      translateTextOpenAI env.openai text targetLang none = Except.ok r →
      autoTranslate env text targetLang (some MessageType.formal) = Except.ok r) ∧
    (∀ e e2, translateTextClaude env.claude text targetLang none (some "formal") =
        Except.error e →
      translateTextOpenAI env.openai text targetLang none = Except.error e2 →
      autoTranslate env text targetLang (some MessageType.formal) = Except.error e) ∧
    (∀ e, translateTextOpenAI env.openai text targetLang none = Except.error e →
      autoTranslate env text targetLang (some MessageType.casual) = Except.error e) := by
  refine ⟨fun e r h1 h2 => ?_, fun e e2 h1 h2 => ?_, fun e r h1 h2 => ?_,
    fun e e2 h1 h2 => ?_, fun e h1 => ?_⟩ <;>
    simp_all [autoTranslate]

theorem c6_fallback_policy_witness :
    translateDocumentGemini cEnvDocFallback.gemini "x" "en" none =
      Except.error
        ⟨"Document translation failed", "GEMINI_ERROR", "Gemini API key not configured"⟩ ∧
    translateTextOpenAI cEnvDocFallback.openai "x" "en" none =
      Except.ok ⟨"hola", none, "en", some (95 / 100)⟩ ∧
    autoTranslate cEnvDocFallback "x" "en" (some MessageType.document) =
      Except.ok ⟨"hola", none, "en", some (95 / 100)⟩ :=
  ⟨rfl, rfl, (c6_fallback_policy cEnvDocFallback "x" "en").1 _ _ rfl rfl⟩

/-- C7: autoTranslate routes by message class — document to the Gemini
document backend, formal to the Claude backend, casual to the OpenAI
backend — returning the selected backend result when it succeeds, and a
missing class hint behaves exactly as the default class casual. -/
theorem c7_routing (env : TranslationEnv) (text targetLang : String) :
    (∀ r, translateDocumentGemini env.gemini text targetLang none = Except.ok r →
      autoTranslate env text targetLang (some MessageType.document) = Except.ok r) ∧
    (∀ r, translateTextClaude env.claude text targetLang none (some "formal") = Except.ok r →
      autoTranslate env text targetLang (some MessageType.formal) = Except.ok r) ∧
    (∀ r, translateTextOpenAI env.openai text targetLang none = Except.ok r →
      autoTranslate env text targetLang (some MessageType.casual) = Except.ok r) ∧
    autoTranslate env text targetLang none =
      autoTranslate env text targetLang (some MessageType.casual) := by
  refine ⟨fun r h => ?_, fun r h => ?_, fun r h => ?_, ?_⟩ <;> simp_all [autoTranslate]

theorem c7_routing_witness :
    translateTextClaude cEnvCasualFail.claude "x" "en" none (some "formal") =
      Except.ok ⟨"hola", none, "en", some (98 / 100)⟩ ∧
    autoTranslate cEnvCasualFail "x" "en" (some MessageType.formal) =
      Except.ok ⟨"hola", none, "en", some (98 / 100)⟩ :=
  ⟨rfl, (c7_routing cEnvCasualFail "x" "en").2.1 _ rfl⟩

/-- C8 counterexample: a backend failure raises a TranslationError whose code
is OPENAI_ERROR, which is none of the three codes BACKEND_UNAVAILABLE,
BACKEND_HTTP_ERROR, EMPTY_RESPONSE named by the claim — the code identifies
the backend, not which of the three causes occurred. -/
theorem c8_error_code_counterexample :
    translateTextOpenAI envKeyMissing "hi" "es" none =
      Except.error ⟨"Translation failed", "OPENAI_ERROR", "OpenAI API key not configured"⟩ ∧
    ("OPENAI_ERROR" : String) ≠ "BACKEND_UNAVAILABLE" ∧
    ("OPENAI_ERROR" : String) ≠ "BACKEND_HTTP_ERROR" ∧
    ("OPENAI_ERROR" : String) ≠ "EMPTY_RESPONSE" :=
  ⟨rfl, by decide, by decide, by decide⟩

/-- C8 amended: every failing backend call — key absent, HTTP failure, or
missing/empty response text — raises a TranslationError carrying one fixed
backend-identifying code: OPENAI_ERROR, GEMINI_ERROR or CLAUDE_ERROR; the
cause is only distinguished in the details string, not by the code. -/
theorem c8_error_codes (env : BackendEnv) (text targetLang : String)
    (sourceLang : Option String) :
    (∀ e, translateTextOpenAI env text targetLang sourceLang = Except.error e →
      e.code = "OPENAI_ERROR") ∧
    (∀ e, translateDocumentGemini env text targetLang sourceLang = Except.error e →
      e.code = "GEMINI_ERROR") ∧
    (∀ e ctx, translateTextClaude env text targetLang sourceLang ctx = Except.error e →
      e.code = "CLAUDE_ERROR") :=
  ⟨(translateTextOpenAI_spec env text targetLang sourceLang).2,
   (translateDocumentGemini_spec env text targetLang sourceLang).2,
   fun e ctx h => (translateTextClaude_spec env text targetLang sourceLang ctx).2 e h⟩

theorem c8_error_codes_witness :
    translateTextOpenAI envKeyMissing "hi" "es" none =
      Except.error ⟨"Translation failed", "OPENAI_ERROR", "OpenAI API key not configured"⟩ ∧
    (⟨"Translation failed", "OPENAI_ERROR",
      "OpenAI API key not configured"⟩ : TranslationError).code = "OPENAI_ERROR" :=
  ⟨rfl, (c8_error_codes envKeyMissing "hi" "es" none).1 _ rfl⟩

theorem batchTranslate_eq_map (env : TranslationEnv) (messages : List BatchItem)
    (targetLang : String) :
    batchTranslate env messages targetLang = messages.map (itemTranslate env targetLang) := by
  induction messages with
  | nil => rfl
  | cons m rest ih => simp [batchTranslate, itemTranslate, ih]

/-- C9: batchTranslate preserves length and processes the items
independently: the result at index i is determined by item i alone — on
failure of that item (fallback included) it is the original text with the
requested target language and confidence 0, on success the backend result —
so one failing item never aborts the batch or drops other items. -/
theorem c9_batch_isolation (env : TranslationEnv) (msgs : List BatchItem)
    (targetLang : String) :
    (batchTranslate env msgs targetLang).length = msgs.length ∧
    (∀ i : Nat, ∀ h : i < msgs.length, ∀ e,
      autoTranslate env msgs[i].text targetLang msgs[i].type = Except.error e →
      (batchTranslate env msgs targetLang)[i]? =
        some ⟨msgs[i].text, none, targetLang, some 0⟩) ∧
    (∀ i : Nat, ∀ h : i < msgs.length, ∀ r,
      autoTranslate env msgs[i].text targetLang msgs[i].type = Except.ok r →
      (batchTranslate env msgs targetLang)[i]? = some r) := by
  rw [batchTranslate_eq_map]
  refine ⟨by simp, fun i h e he => ?_, fun i h r hr => ?_⟩
  · rw [List.getElem?_map, List.getElem?_eq_getElem h]
    simp [itemTranslate, he]
  · rw [List.getElem?_map, List.getElem?_eq_getElem h]
    simp [itemTranslate, hr]

theorem c9_batch_isolation_witness :
    (batchTranslate cEnvCasualFail c9items "en").length = 3 ∧
    autoTranslate cEnvCasualFail "b" "en" none =
      Except.error ⟨"Translation failed", "OPENAI_ERROR", "OpenAI API key not configured"⟩ ∧
    (batchTranslate cEnvCasualFail c9items "en")[1]? =
      some ⟨"b", none, "en", some 0⟩ :=
  ⟨(c9_batch_isolation cEnvCasualFail c9items "en").1.trans rfl, rfl,
   (c9_batch_isolation cEnvCasualFail c9items "en").2.1 1 (by decide) _ rfl⟩

/-- C10: each successful backend call carries its strictly positive constant
confidence — 0.95 for OpenAI, 0.92 for Gemini, 0.98 for Claude — and in a
batchTranslate result an item has confidence 0 exactly when its translation,
fallback included, failed and was replaced by the original text. -/
theorem c10_confidence (envB : BackendEnv) (env : TranslationEnv) (msgs : List BatchItem)
    (text targetLang : String) (sourceLang : Option String) :
    ((0 : ℚ) < 95 / 100 ∧ (0 : ℚ) < 92 / 100 ∧ (0 : ℚ) < 98 / 100) ∧
    (∀ r, translateTextOpenAI envB text targetLang sourceLang = Except.ok r →
      r.confidence = some (95 / 100)) ∧
    (∀ r, translateDocumentGemini envB text targetLang sourceLang = Except.ok r →
      r.confidence = some (92 / 100)) ∧
    (∀ r ctx, translateTextClaude envB text targetLang sourceLang ctx = Except.ok r →
      r.confidence = some (98 / 100)) ∧
    (∀ i : Nat, ∀ h : i < msgs.length, ∀ out,
      (batchTranslate env msgs targetLang)[i]? = some out →
      (out.confidence = some 0 ↔
        ∃ e, autoTranslate env msgs[i].text targetLang msgs[i].type =
          Except.error e)) := by
  refine ⟨⟨by norm_num, by norm_num, by norm_num⟩,
    (translateTextOpenAI_spec envB text targetLang sourceLang).1,
    (translateDocumentGemini_spec envB text targetLang sourceLang).1,
    fun r ctx hr => (translateTextClaude_spec envB text targetLang sourceLang ctx).1 r hr,
    fun i h out hout => ?_⟩
  rw [batchTranslate_eq_map, List.getElem?_map, List.getElem?_eq_getElem h] at hout
  simp only [Option.map_some', Option.some.injEq] at hout
  subst hout
  unfold itemTranslate
  cases hcall : autoTranslate env msgs[i].text targetLang msgs[i].type with
  | error e =>
    simp [hcall]
  | ok r =>
    simp only [hcall]
    constructor
    · intro hzero
      rcases autoTranslate_ok_confidence env _ targetLang _ r hcall with hc | hc | hc <;>
        rw [hc] at hzero <;> simp at hzero
    · rintro ⟨e, he⟩
      exact absurd he (by simp)

theorem c10_confidence_witness :
    translateTextClaude envWorking "x" "en" none (some "formal") =
      Except.ok ⟨"hola", none, "en", some (98 / 100)⟩ ∧
    (⟨"hola", none, "en", some (98 / 100)⟩ : TranslationResult).confidence =
      some (98 / 100) ∧
    (batchTranslate cEnvCasualFail c9items "en")[1]? = some ⟨"b", none, "en", some 0⟩ ∧
    ((⟨"b", none, "en", some 0⟩ : TranslationResult).confidence = some 0 ↔
      ∃ e, autoTranslate cEnvCasualFail "b" "en" none = Except.error e) :=
  ⟨rfl,
   (c10_confidence envWorking cEnvCasualFail c9items "x" "en" none).2.2.2.1 _ (some "formal") rfl,
   rfl,
   (c10_confidence envWorking cEnvCasualFail c9items "x" "en" none).2.2.2.2 1 (by decide) _ rfl⟩

end Multichat
